import Mathlib

/-!
Verification development for the tatbeeblink-relay repository.

The repository contains three coexisting drafts of the relay:
  * src/main.go            — yamux + JWT-authenticated variant (RelayServer);
  * src/main-simple.go     — simple line-protocol yamux variant (SimpleRelay);
  * src/unnamed/part_001   — heartbeat line-protocol variant (RelayServer with
    an availablePorts free list, assignPort / releasePort / cleanupAgent /
    heartbeatChecker).

Each Go function relevant to the claims is embedded below as a pure Lean
function.  Ambient effects are made explicit parameters: the current unix
time (time.Now().Unix()) is a parameter `now : Int`; success of fallible
I/O steps (net.Listen, conn.Write, yamux.Server) is a Boolean parameter;
OS handles (listeners, mux sessions, TCP connections) are identified by
opaque numeric ids.  State-changing handlers return the new state together
with a trace of resource events (listener/session/conn closes, port
releases, frames written), so that ordering claims can be stated.
-/

namespace TatbeebRelay

/-- Association-list lookup: returns the value of the first pair whose key
matches, mirroring a Go map read (Go maps have unique keys). -/
def mapLookup {α β : Type} [DecidableEq α] : List (α × β) → α → Option β
  | [], _ => none
  | (k1, v1) :: rest, k => if k1 = k then some v1 else mapLookup rest k

/-- Association-list insert-or-replace, mirroring a Go map assignment
m[k] = v: replaces the first binding of the key, otherwise appends. -/
def mapInsert {α β : Type} [DecidableEq α] : List (α × β) → α → β → List (α × β)
  | [], k, v => [(k, v)]
  | (k1, v1) :: rest, k, v =>
      if k1 = k then (k, v) :: rest else (k1, v1) :: mapInsert rest k v

/-- Association-list erase, mirroring Go delete(m, k): removes every
binding of the key (a well-formed Go map has at most one). -/
def mapErase {α β : Type} [DecidableEq α] (m : List (α × β)) (k : α) : List (α × β) :=
  m.filter (fun kv => kv.1 ≠ k)

/-- ASCII bytes of a string, as naturals; Go strings are byte strings and
tenant ids are sliced bytewise. -/
def bytesOfAscii (s : String) : List Nat := s.data.map Char.toNat

/-- Go string slicing s[:n] on a byte string: in Go this panics when
n exceeds len(s); the panic is modelled as none. -/
def goSliceTo (s : List Nat) (n : Nat) : Option (List Nat) :=
  if n ≤ s.length then some (s.take n) else none

/-- Resource-level events emitted by handler steps, used to state ordering
properties about teardown and replacement. -/
inductive Event where
  | closeListener (id : Nat)
  | closeSession (id : Nat)
  | closeConn (id : Nat)
  | releasedPort (p : Int)
  | sentRegistered
deriving DecidableEq

/- ------------------------------------------------------------------
Variant B: src/main.go (yamux + JWT, RelayServer)
------------------------------------------------------------------ -/

/-- Tenant record of src/main.go:20-29.  ControlSession and Listener are
OS handles, modelled as numeric ids; the mutex guards nothing in a
sequential model. -/
structure Tenant where
  id : List Nat
  assignedPort : Int
  sqlUser : List Nat
  sqlPassword : String
  controlSession : Nat
  listener : Nat
  activeConns : Int
deriving DecidableEq

/-- Mutable state of RelayServer (src/main.go:31-41) relevant to the
claims: the tenant registry and the index-based port pool.  The pool is a
fixed slice portPool with a monotone cursor nextPortIndex; main.go defines
no release operation on it. -/
structure RelayState where
  tenants : List (List Nat × Tenant)
  portPool : List Int
  nextPortIndex : Nat
deriving DecidableEq

/-- Free-port count of the main.go pool, as exposed by /metrics
(src/main.go:133): len(portPool) - nextPortIndex. -/
def freeCountMain (st : RelayState) : Nat :=
  st.portPool.length - st.nextPortIndex

/-- Embeds generatePassword (src/main.go:445-448):
fmt.Sprintf("pwd_%d", time.Now().Unix()), with the current unix time in
whole seconds passed explicitly.  There is no other input. -/
def generatePassword (now : Int) : String :=
  "pwd_" ++ toString now

/-- SQL username synthesis in registerTenant (src/main.go:311):
fmt.Sprintf("tatbeeb_%s", tenantID[:6]).  none models the Go slice panic
when the tenant id is shorter than 6 bytes. -/
def sqlUserOf (tenantID : List Nat) : Option (List Nat) :=
  (goSliceTo tenantID 6).map (fun p => bytesOfAscii "tatbeeb_" ++ p)

/-- Result of registerTenant: the returned *Tenant (none models a nil
return), the new server state, and the emitted resource events. -/
structure RegisterOutcome where
  result : Option Tenant
  state : RelayState
  events : List Event
deriving DecidableEq

/-- Embeds RelayServer.registerTenant (src/main.go:279-319).  bindOk is
whether net.Listen on the allocated port succeeds and newListenerId its
handle; sessionId is the yamux session handle; now is time.Now().Unix().
The outer none models the Go panic from tenantID[:6] on a short id.
On re-registration only existing.Listener.Close() is called; the pool
cursor only ever advances and the old mux session is not touched. -/
def registerTenant (st : RelayState) (tenantID : List Nat) (sessionId : Nat)
    (bindOk : Bool) (newListenerId : Nat) (now : Int) : Option RegisterOutcome :=
  let evs : List Event :=
    match mapLookup st.tenants tenantID with
    | some existing => [Event.closeListener existing.listener]
    | none => []
  if h : st.nextPortIndex < st.portPool.length then
    let port := st.portPool.get ⟨st.nextPortIndex, h⟩
    let st1 : RelayState := { st with nextPortIndex := st.nextPortIndex + 1 }
    if bindOk then
      match sqlUserOf tenantID with
      | none => none
      | some u =>
          let t : Tenant :=
            { id := tenantID, assignedPort := port, sqlUser := u,
              sqlPassword := generatePassword now, controlSession := sessionId,
              listener := newListenerId, activeConns := 0 }
          some { result := some t,
                 state := { st1 with tenants := mapInsert st1.tenants tenantID t },
                 events := evs }
    else
      some { result := none, state := st1, events := evs }
  else
    some { result := none, state := st, events := evs }

/-- Embeds RelayServer.unregisterTenant (src/main.go:321-332): close the
listener and delete the registry entry.  No port is released — main.go
has no release operation on its pool. -/
def unregisterTenant (st : RelayState) (tenantID : List Nat) :
    RelayState × List Event :=
  match mapLookup st.tenants tenantID with
  | some t =>
      ({ st with tenants := mapErase st.tenants tenantID },
       [Event.closeListener t.listener])
  | none => (st, [])

/-- Embeds the registration tail of handleControlConnection
(src/main.go:229-256): call registerTenant, then write the REGISTERED
frame; on write failure call unregisterTenant.  writeOk is whether
stream.Write of the REGISTERED frame succeeds; Event.sentRegistered marks
its successful send.  none propagates the registerTenant panic. -/
def handleRegistration (st : RelayState) (tenantID : List Nat) (sessionId : Nat)
    (bindOk : Bool) (newListenerId : Nat) (now : Int) (writeOk : Bool) :
    Option (RelayState × List Event) :=
  match registerTenant st tenantID sessionId bindOk newListenerId now with
  | none => none
  | some out =>
      match out.result with
      | none => some (out.state, out.events)
      | some t =>
          if writeOk then
            some (out.state, out.events ++ [Event.sentRegistered])
          else
            let r := unregisterTenant out.state t.id
            some (r.1, out.events ++ r.2)

/-- Embeds the connection-limit check of acceptTenantConnections
(src/main.go:344-353): a freshly accepted client connection is closed when
ActiveConns >= MaxConnectionsPerTenant, otherwise ActiveConns is
incremented and the connection is forwarded.  Returns (forwarded, new
ActiveConns). -/
def acceptStep (maxConns activeConns : Int) : Bool × Int :=
  if activeConns ≥ maxConns then (false, activeConns) else (true, activeConns + 1)

/-- Folds acceptStep over n back-to-back accepted client connections with
no intervening departures; returns the final ActiveConns and how many
connections were forwarded. -/
def acceptMany (maxConns activeConns : Int) : Nat → Int × Int
  | 0 => (activeConns, 0)
  | n + 1 =>
      let s := acceptStep maxConns activeConns
      let r := acceptMany maxConns s.2 n
      (r.1, (if s.1 then 1 else 0) + r.2)

/- ------------------------------------------------------------------
JWT verification: src/jwt.go
------------------------------------------------------------------ -/

/-- JWT claims (src/jwt.go:14-23), restricted to the fields the validation
chain reads. -/
structure JWTClaims where
  sub : String
  iss : String
  aud : String
  exp : Int
  iat : Int
deriving DecidableEq

/-- Embeds the claim-validation tail of VerifyJWT (src/jwt.go:58-74), the
checks that run once the signature has matched and the payload has been
decoded into claims: issuer, audience, then the expiration test
claims.Exp > 0 && claims.Exp < now.  now is time.Now().Unix(). -/
def verifyClaimChecks (claims : JWTClaims) (expectedIssuer expectedAudience : String)
    (now : Int) : Except String JWTClaims :=
  if claims.iss ≠ expectedIssuer then Except.error "invalid issuer"
  else if claims.aud ≠ expectedAudience then Except.error "invalid audience"
  else if claims.exp > 0 ∧ claims.exp < now then Except.error "token expired"
  else Except.ok claims

/- ------------------------------------------------------------------
Simple variant: src/main-simple.go (SimpleRelay)
------------------------------------------------------------------ -/

/-- Tenant record of src/main-simple.go:18-25. -/
structure SimpleTenant where
  id : String
  assignedPort : Int
  yamuxSession : Nat
  listener : Nat
deriving DecidableEq

/-- Mutable state of SimpleRelay (src/main-simple.go:27-32): registry and
the same index-based pool as main.go. -/
structure SimpleState where
  tenants : List (String × SimpleTenant)
  portPool : List Int
  nextPortIndex : Nat
deriving DecidableEq

/-- Free-port count of the SimpleRelay pool: len(portPool) - nextPortIndex. -/
def freeCountSimple (st : SimpleState) : Nat :=
  st.portPool.length - st.nextPortIndex

/-- Outcome of the SimpleRelay registration path: new state, the lines
handed to conn.Write, and whether a tenant was inserted into the registry. -/
structure SimpleOutcome where
  state : SimpleState
  written : List String
  inserted : Bool
deriving DecidableEq

/-- Embeds the registration path of SimpleRelay.handleConnection
(src/main-simple.go:112-158), after the REGISTER line has been read:
allocate from the pool (or write "ERROR No ports available\n"), write
"OK port:<port>\n", wrap the connection in yamux, bind the tenant
listener, insert into the registry.  writeOk, muxOk, bindOk are the
success of conn.Write, yamux.Server and net.Listen; none of the failure
returns rolls the pool cursor back. -/
def simpleHandleRegister (st : SimpleState) (writeOk muxOk bindOk : Bool)
    (sessionId listenerId : Nat) : SimpleOutcome :=
  if h : st.nextPortIndex < st.portPool.length then
    let port := st.portPool.get ⟨st.nextPortIndex, h⟩
    let tid := "tenant-" ++ toString port
    let st1 : SimpleState := { st with nextPortIndex := st.nextPortIndex + 1 }
    let okLine := "OK port:" ++ toString port ++ "\n"
    if writeOk then
      if muxOk then
        if bindOk then
          let t : SimpleTenant :=
            { id := tid, assignedPort := port, yamuxSession := sessionId,
              listener := listenerId }
          { state := { st1 with tenants := mapInsert st1.tenants tid t },
            written := [okLine], inserted := true }
        else { state := st1, written := [okLine], inserted := false }
      else { state := st1, written := [okLine], inserted := false }
    else { state := st1, written := [okLine], inserted := false }
  else
    { state := st, written := ["ERROR No ports available\n"], inserted := false }

/- ------------------------------------------------------------------
Heartbeat variant: src/unnamed/part_001 (second file, RelayServer with
availablePorts / assignPort / releasePort / cleanupAgent /
heartbeatChecker)
------------------------------------------------------------------ -/

/-- Agent record of the heartbeat variant (src/unnamed/part_001:314-320).
conn and listener are OS handles; the listener is nil (none) between
assignPort and the successful net.Listen. -/
structure Agent where
  connId : Nat
  assignedPort : Int
  listenerId : Option Nat
  lastHeartbeat : Int
deriving DecidableEq

/-- Mutable state of the heartbeat variant RelayServer
(src/unnamed/part_001:322-327): agents keyed by port, and the
availablePorts free list. -/
structure AgentRelay where
  agents : List (Int × Agent)
  availablePorts : List Int
deriving DecidableEq

/-- Free-port count of the heartbeat variant, as exposed by /health
(src/unnamed/part_001:579): len(availablePorts). -/
def freeCount (st : AgentRelay) : Nat :=
  st.availablePorts.length

/-- Embeds RelayServer.assignPort (src/unnamed/part_001:514-525): pop the
head of availablePorts, or return the sentinel 0 when the list is empty. -/
def assignPort (st : AgentRelay) : Int × AgentRelay :=
  match st.availablePorts with
  | [] => (0, st)
  | p :: rest => (p, { st with availablePorts := rest })

/-- Embeds RelayServer.releasePort (src/unnamed/part_001:527-532): append
the port to availablePorts. -/
def releasePort (st : AgentRelay) (port : Int) : AgentRelay :=
  { st with availablePorts := st.availablePorts ++ [port] }

/-- Embeds RelayServer.cleanupAgent (src/unnamed/part_001:534-549): remove
the agent from the map; if it existed, close its listener (when non-nil),
close its control connection, then release its port.  The event trace
records that order. -/
def cleanupAgent (st : AgentRelay) (port : Int) : AgentRelay × List Event :=
  match mapLookup st.agents port with
  | none => (st, [])
  | some a =>
      let st1 : AgentRelay := { st with agents := mapErase st.agents port }
      let closeEvs : List Event :=
        (match a.listenerId with
         | some l => [Event.closeListener l]
         | none => []) ++ [Event.closeConn a.connId]
      (releasePort st1 port, closeEvs ++ [Event.releasedPort port])

/-- Result of the heartbeat-variant registration handshake. -/
inductive RegResult where
  | errInvalid
  | errNoPorts
  | errBind
  | errWrite
  | ok (port : Int)
deriving DecidableEq

/-- True exactly on the successful outcome, i.e. when a session was
inserted into the registry and the OK line was delivered. -/
def RegResult.isSuccess : RegResult → Bool
  | .ok _ => true
  | _ => false

/-- Embeds the registration part of RelayServer.handleAgent
(src/unnamed/part_001:403-465): check the REGISTER line, assignPort (0
means exhausted, answered with "ERROR no available ports\n"), bind the
tenant listener (on failure releasePort and write an ERROR line), store
the agent, write "OK port:<port>\n" (on failure cleanupAgent).  bindOk
and writeOk are the success of net.Listen and conn.Write; connId and
listenerId the respective handles; now is the registration time used for
lastHeartbeat.  Returns the new state, the lines handed to conn.Write,
and the outcome. -/
def handleAgentRegister (st : AgentRelay) (command : String) (bindOk : Bool)
    (listenerId connId : Nat) (now : Int) (writeOk : Bool) :
    AgentRelay × List String × RegResult :=
  if command ≠ "REGISTER" then
    (st, ["ERROR invalid command\n"], RegResult.errInvalid)
  else
    let ar := assignPort st
    let port := ar.1
    let st1 := ar.2
    if port = 0 then
      (st1, ["ERROR no available ports\n"], RegResult.errNoPorts)
    else if bindOk then
      let agent : Agent :=
        { connId := connId, assignedPort := port, listenerId := some listenerId,
          lastHeartbeat := now }
      let st2 : AgentRelay := { st1 with agents := mapInsert st1.agents port agent }
      let okLine := "OK port:" ++ toString port ++ "\n"
      if writeOk then
        (st2, [okLine], RegResult.ok port)
      else
        ((cleanupAgent st2 port).1, [okLine], RegResult.errWrite)
    else
      (releasePort st1 port, ["ERROR failed to bind port\n"], RegResult.errBind)

/-- Embeds the heartbeat branch of the handleAgent read loop
(src/unnamed/part_001:471-486): a received line equal to "HEARTBEAT"
(after TrimSpace) sets the agent's lastHeartbeat to the current time;
every other line is ignored. -/
def handleHeartbeatLine (st : AgentRelay) (port : Int) (line : String)
    (now : Int) : AgentRelay :=
  if line = "HEARTBEAT" then
    match mapLookup st.agents port with
    | some a =>
        { st with agents := mapInsert st.agents port { a with lastHeartbeat := now } }
    | none => st
  else st

/-- Stale-port collection pass of RelayServer.heartbeatChecker
(src/unnamed/part_001:556-565): the ports of all agents whose
lastHeartbeat is more than 120 seconds old. -/
def stalePorts (st : AgentRelay) (now : Int) : List Int :=
  (st.agents.filter (fun pa => now - pa.2.lastHeartbeat > 120)).map (fun pa => pa.1)

/-- One tick of RelayServer.heartbeatChecker (src/unnamed/part_001:551-573),
run every 60 seconds: collect the stale ports, then cleanupAgent each. -/
def heartbeatScan (st : AgentRelay) (now : Int) : AgentRelay :=
  (stalePorts st now).foldl (fun s p => (cleanupAgent s p).1) st

/- ------------------------------------------------------------------
Helper lemmas about the association-list map operations
------------------------------------------------------------------ -/

theorem mapLookup_mapInsert_self {α β : Type} [DecidableEq α]
    (m : List (α × β)) (k : α) (v : β) :
    mapLookup (mapInsert m k v) k = some v := by
  induction m with
  | nil => simp [mapInsert, mapLookup]
  | cons kv rest ih =>
      obtain ⟨k1, v1⟩ := kv
      by_cases h : k1 = k
      · simp [mapInsert, h, mapLookup]
      · simp [mapInsert, h, mapLookup, ih]

theorem mapLookup_mapInsert_ne {α β : Type} [DecidableEq α]
    (m : List (α × β)) (k q : α) (v : β) (h : k ≠ q) :
    mapLookup (mapInsert m k v) q = mapLookup m q := by
  induction m with
  | nil => simp [mapInsert, mapLookup, h]
  | cons kv rest ih =>
      obtain ⟨k1, v1⟩ := kv
      by_cases h1 : k1 = k
      · subst h1
        simp [mapInsert, mapLookup, h]
      · simp [mapInsert, h1, mapLookup, ih]

theorem mapLookup_mapErase_self {α β : Type} [DecidableEq α]
    (m : List (α × β)) (k : α) :
    mapLookup (mapErase m k) k = none := by
  induction m with
  | nil => simp [mapErase, mapLookup]
  | cons kv rest ih =>
      obtain ⟨k1, v1⟩ := kv
      by_cases h : k1 = k
      · simpa [mapErase, h, mapLookup] using ih
      · simpa [mapErase, h, mapLookup] using ih

theorem mapLookup_mapErase_ne {α β : Type} [DecidableEq α]
    (m : List (α × β)) (k q : α) (h : q ≠ k) :
    mapLookup (mapErase m k) q = mapLookup m q := by
  induction m with
  | nil => simp [mapErase, mapLookup]
  | cons kv rest ih =>
      obtain ⟨k1, v1⟩ := kv
      by_cases h1 : k1 = k
      · subst h1
        have h2 : ¬ k1 = q := fun hq => h hq.symm
        simpa [mapErase, mapLookup, h2] using ih
      · by_cases h2 : k1 = q
        · subst h2
          simp [mapErase, mapLookup, List.filter_cons, h1]
        · simpa [mapErase, h1, mapLookup, h2] using ih

theorem mapLookup_mem {α β : Type} [DecidableEq α]
    {m : List (α × β)} {k : α} {v : β} (h : mapLookup m k = some v) :
    (k, v) ∈ m := by
  induction m with
  | nil => simp [mapLookup] at h
  | cons kv rest ih =>
      obtain ⟨k1, v1⟩ := kv
      by_cases h1 : k1 = k
      · subst h1
        simp [mapLookup] at h
        simp [h]
      · simp [mapLookup, h1] at h
        exact List.mem_cons_of_mem _ (ih h)

theorem mem_mapLookup_of_nodup {α β : Type} [DecidableEq α]
    {m : List (α × β)} {k : α} {v : β}
    (hnd : (m.map Prod.fst).Nodup) (hmem : (k, v) ∈ m) :
    mapLookup m k = some v := by
  induction m with
  | nil => simp at hmem
  | cons kv rest ih =>
      obtain ⟨k1, v1⟩ := kv
      simp only [List.map_cons, List.nodup_cons] at hnd
      rcases List.mem_cons.mp hmem with hEq | hTail
      · cases hEq
        simp [mapLookup]
      · have hk1 : k1 ≠ k := by
          intro hk
          subst hk
          exact hnd.1 (List.mem_map.mpr ⟨(k1, v), hTail, rfl⟩)
        simp [mapLookup, hk1]
        exact ih hnd.2 hTail

/- ------------------------------------------------------------------
Concrete example values used by counterexamples and witnesses
------------------------------------------------------------------ -/

/-- JWT claims with the configured issuer and audience of src/main.go:59-60
and an exp equal to the probe time 1000. -/
def expNowClaims : JWTClaims :=
  { sub := "clinic-0001", iss := "his.tatbeeb.sa",
    aud := "tatbeeb-link.tatbeeb.sa", exp := 1000, iat := 0 }

/-- Same claims with a missing (zero) exp. -/
def expZeroClaims : JWTClaims :=
  { expNowClaims with exp := 0 }

/-- A heartbeat-variant pool with two free ports and no agents. -/
def poolExample : AgentRelay :=
  { agents := [], availablePorts := [50000, 50001] }

/-- A main.go relay state with one free port and an empty registry. -/
def freshMainState : RelayState :=
  { tenants := [], portPool := [50000], nextPortIndex := 0 }

/- ------------------------------------------------------------------
C5 — JWT expiry validation
------------------------------------------------------------------ -/

/-- C5 counterexample: the claim says VerifyJWT rejects every token whose
exp is not strictly greater than now, in particular exp equal to now and
exp zero.  The expiry test in src/jwt.go:70 is claims.Exp > 0 &&
claims.Exp < now, so with now = 1000 a token with exp = 1000 and a token
with exp = 0 are both accepted. -/
theorem C5_counterexample :
    verifyClaimChecks expNowClaims "his.tatbeeb.sa" "tatbeeb-link.tatbeeb.sa" 1000
      = Except.ok expNowClaims
    ∧ expNowClaims.exp = 1000
    ∧ verifyClaimChecks expZeroClaims "his.tatbeeb.sa" "tatbeeb-link.tatbeeb.sa" 1000
      = Except.ok expZeroClaims
    ∧ expZeroClaims.exp = 0 := by
  refine ⟨?_, rfl, ?_, rfl⟩ <;> rfl

/-- C5 amended: once the issuer and audience checks pass, VerifyJWT
accepts the token exactly when NOT (exp > 0 and exp < now); a token whose
exp equals now, or whose exp is missing (zero or negative), is accepted
rather than rejected. -/
theorem C5_expiry_check (claims : JWTClaims) (issuer audience : String) (now : Int)
    (hiss : claims.iss = issuer) (haud : claims.aud = audience) :
    verifyClaimChecks claims issuer audience now = Except.ok claims
      ↔ ¬(claims.exp > 0 ∧ claims.exp < now) := by
  unfold verifyClaimChecks
  by_cases h : claims.exp > 0 ∧ claims.exp < now <;> simp [hiss, haud, h]

/-- C5 witness: the amended characterisation evaluated on concrete claims
with exp = 1000 at now = 500 (not yet expired, accepted). -/
theorem C5_expiry_check_witness :
    expNowClaims.iss = "his.tatbeeb.sa"
    ∧ expNowClaims.aud = "tatbeeb-link.tatbeeb.sa"
    ∧ (verifyClaimChecks expNowClaims "his.tatbeeb.sa" "tatbeeb-link.tatbeeb.sa" 500
        = Except.ok expNowClaims
      ↔ ¬(expNowClaims.exp > 0 ∧ expNowClaims.exp < 500)) :=
  ⟨rfl, rfl, C5_expiry_check expNowClaims "his.tatbeeb.sa" "tatbeeb-link.tatbeeb.sa" 500 rfl rfl⟩

/- ------------------------------------------------------------------
C8 — acquire/release round-trip on the heartbeat-variant pool
------------------------------------------------------------------ -/

/-- C8: for every pool state with at least one available port, acquiring
a port (assignPort) and then immediately releasing that same port
(releasePort) leaves the free set unchanged: the resulting availablePorts
list is a permutation of the original, hence equal as a set. -/
theorem C8_acquire_release_roundtrip (st : AgentRelay) (p : Int) (rest : List Int)
    (h : st.availablePorts = p :: rest) :
    ((releasePort (assignPort st).2 (assignPort st).1).availablePorts).Perm
      st.availablePorts
    ∧ ∀ x : Int,
        x ∈ (releasePort (assignPort st).2 (assignPort st).1).availablePorts
          ↔ x ∈ st.availablePorts := by
  have h1 : assignPort st = (p, { st with availablePorts := rest }) := by
    simp [assignPort, h]
  constructor
  · rw [h1, h]
    simpa [releasePort] using List.perm_append_singleton p rest
  · intro x
    rw [h1, h]
    simp [releasePort, or_comm]

/-- C8 witness: the round-trip evaluated on a concrete two-port pool. -/
theorem C8_acquire_release_roundtrip_witness :
    poolExample.availablePorts = 50000 :: [50001]
    ∧ (((releasePort (assignPort poolExample).2 (assignPort poolExample).1).availablePorts).Perm
        poolExample.availablePorts
      ∧ ∀ x : Int,
          x ∈ (releasePort (assignPort poolExample).2 (assignPort poolExample).1).availablePorts
            ↔ x ∈ poolExample.availablePorts) :=
  ⟨rfl, C8_acquire_release_roundtrip poolExample 50000 [50001] rfl⟩

/- ------------------------------------------------------------------
C4 — per-tenant connection cap
------------------------------------------------------------------ -/

/-- C4 counterexample: the claim says that with max_connections_per_tenant
configured to 0 the limit is not enforced and every accepted client
connection is forwarded.  The check in src/main.go:346 is ActiveConns >=
MaxConnectionsPerTenant, so with the cap 0 and no active connections the
very first accepted client connection is closed (forwarded = false) and no
stream is opened. -/
theorem C4_counterexample :
    acceptStep 0 0 = (false, 0) := by
  decide

/-- Helper: the number of forwarded connections among n back-to-back
accepts starting from activeConns = a under cap maxConns. -/
theorem acceptMany_count (maxConns : Int) (n : Nat) :
    ∀ a : Int, 0 ≤ a → a ≤ maxConns →
      (acceptMany maxConns a n).2 = min (n : Int) (maxConns - a) := by
  induction n with
  | zero =>
      intro a h0 h1
      simp [acceptMany]
      omega
  | succ k ih =>
      intro a h0 h1
      by_cases hlt : a < maxConns
      · have hstep : acceptStep maxConns a = (true, a + 1) := by
          simp [acceptStep]
          omega
        have hrec := ih (a + 1) (by omega) (by omega)
        simp [acceptMany, hstep, hrec]
        omega
      · have ha : a = maxConns := le_antisymm h1 (not_lt.mp hlt)
        have hstep : acceptStep maxConns a = (false, a) := by
          simp [acceptStep]
          omega
        have hrec := ih a h0 h1
        simp [acceptMany, hstep, hrec]
        omega

/-- C4 amended: when the cap is positive the check admits a connection
exactly while ActiveConns is below the cap, so of n back-to-back accepted
connections exactly min(n, cap) are forwarded; but when the cap is 0 the
same check closes every accepted connection (a cap of zero), it does not
disable the limit. -/
theorem C4_connection_cap (maxConns activeConns : Int) (n : Nat)
    (hmax : 0 ≤ maxConns) :
    ((acceptStep maxConns activeConns).1 = true ↔ activeConns < maxConns)
    ∧ (acceptMany maxConns 0 n).2 = min (n : Int) maxConns
    ∧ ((acceptStep 0 activeConns).1 = true ↔ activeConns < 0) := by
  refine ⟨?_, ?_, ?_⟩
  · unfold acceptStep
    by_cases h : activeConns ≥ maxConns <;> simp [h] <;> omega
  · simpa using acceptMany_count maxConns n 0 le_rfl hmax
  · unfold acceptStep
    by_cases h : activeConns ≥ (0 : Int) <;> simp [h] <;> omega

/-- C4 witness: the cap characterisation evaluated at cap 2, one active
connection, five back-to-back accepts. -/
theorem C4_connection_cap_witness :
    (0 : Int) ≤ 2
    ∧ (((acceptStep 2 1).1 = true ↔ (1 : Int) < 2)
      ∧ (acceptMany 2 0 5).2 = min (5 : Int) 2
      ∧ ((acceptStep 0 1).1 = true ↔ (1 : Int) < 0)) :=
  ⟨by decide, C4_connection_cap 2 1 5 (by decide)⟩

/- ------------------------------------------------------------------
C9 — tenantID[:6] slice precondition
------------------------------------------------------------------ -/

/-- C9: the SQL-username synthesis of registerTenant slices the JWT-verified
tenant id as tenantID[:6]; the slice is well defined exactly when the id is
at least 6 bytes long, and for the concrete 3-byte id "abc" the slice is
out of bounds, so the handler panics (modelled as none) instead of
returning an ERROR frame. -/
theorem C9_short_tenant_id :
    (∀ tid : List Nat, 6 ≤ tid.length → (sqlUserOf tid).isSome = true)
    ∧ sqlUserOf (bytesOfAscii "abc") = none
    ∧ registerTenant freshMainState (bytesOfAscii "abc") 1 true 2 0 = none := by
  refine ⟨?_, by decide, by decide⟩
  intro tid h
  simp [sqlUserOf, goSliceTo, h]

/-- C9 witness: a 6-byte tenant id satisfies the length precondition and
yields a defined SQL username. -/
theorem C9_short_tenant_id_witness :
    6 ≤ (bytesOfAscii "abcdef").length
    ∧ (sqlUserOf (bytesOfAscii "abcdef")).isSome = true :=
  ⟨by decide, C9_short_tenant_id.1 (bytesOfAscii "abcdef") (by decide)⟩

/- ------------------------------------------------------------------
C10 — time-derived password
------------------------------------------------------------------ -/

/-- Helper: a tenant successfully produced by registerTenant carries the
password generatePassword now, where now is the registration time. -/
theorem registerTenant_password (st : RelayState) (tid : List Nat)
    (sessionId : Nat) (bindOk : Bool) (listenerId : Nat) (now : Int)
    (out : RegisterOutcome) (t : Tenant)
    (hreg : registerTenant st tid sessionId bindOk listenerId now = some out)
    (hres : out.result = some t) :
    t.sqlPassword = generatePassword now := by
  unfold registerTenant at hreg
  by_cases hidx : st.nextPortIndex < st.portPool.length
  · simp only [hidx, dite_true] at hreg
    by_cases hbind : bindOk
    · simp only [hbind, if_true] at hreg
      cases hsql : sqlUserOf tid with
      | none => simp [hsql] at hreg
      | some u =>
          simp [hsql] at hreg
          rw [← hreg] at hres
          simp at hres
          rw [← hres]
    · simp [hbind] at hreg
      rw [← hreg] at hres
      simp at hres
  · simp only [hidx, dite_false, Option.some.injEq] at hreg
    rw [← hreg] at hres
    simp at hres

/-- C10: generatePassword is the pure function now ↦ "pwd_" ++ now of the
unix time in whole seconds (src/main.go:445-448) with no random component,
so any two registrations processed within the same second — whatever their
states, tenant ids, sessions or listeners — are assigned the same SQL
password. -/
theorem C10_password_determinism :
    (∀ now : Int, generatePassword now = "pwd_" ++ toString now)
    ∧ ∀ (st1 st2 : RelayState) (t1 t2 : List Nat) (s1 s2 l1 l2 : Nat)
        (b1 b2 : Bool) (now : Int) (out1 out2 : RegisterOutcome) (a b : Tenant),
        registerTenant st1 t1 s1 b1 l1 now = some out1 →
        registerTenant st2 t2 s2 b2 l2 now = some out2 →
        out1.result = some a → out2.result = some b →
        a.sqlPassword = b.sqlPassword := by
  refine ⟨fun _ => rfl, ?_⟩
  intro st1 st2 t1 t2 s1 s2 l1 l2 b1 b2 now out1 out2 a b h1 h2 hr1 hr2
  rw [registerTenant_password st1 t1 s1 b1 l1 now out1 a h1 hr1,
      registerTenant_password st2 t2 s2 b2 l2 now out2 b h2 hr2]

/-- C10 witness: two concrete registrations with different tenant ids in
the same second receive the same password. -/
theorem C10_password_determinism_witness :
    registerTenant freshMainState (bytesOfAscii "abcdef") 1 true 2 1700000000
        = some ((registerTenant freshMainState (bytesOfAscii "abcdef") 1 true 2 1700000000).get
            (by decide))
    ∧ ∀ (a b : Tenant),
        ((registerTenant freshMainState (bytesOfAscii "abcdef") 1 true 2 1700000000).get
            (by decide)).result = some a →
        ((registerTenant freshMainState (bytesOfAscii "uvwxyz") 3 true 4 1700000000).get
            (by decide)).result = some b →
        a.sqlPassword = b.sqlPassword := by
  refine ⟨by simp, ?_⟩
  intro a b ha hb
  exact C10_password_determinism.2 freshMainState freshMainState
    (bytesOfAscii "abcdef") (bytesOfAscii "uvwxyz") 1 3 2 4 true true 1700000000
    _ _ a b (Option.some_get _).symm (Option.some_get _).symm ha hb

/- ------------------------------------------------------------------
C1 — variant-B re-registration replacement
------------------------------------------------------------------ -/

/-- The first session of tenant "abcdef": mux session 1, listener 10,
port 50000. -/
def oldTenantEx : Tenant :=
  { id := bytesOfAscii "abcdef", assignedPort := 50000,
    sqlUser := bytesOfAscii "tatbeeb_abcdef", sqlPassword := "pwd_0",
    controlSession := 1, listener := 10, activeConns := 0 }

/-- A main.go relay state in which tenant "abcdef" is registered on port
50000 and one port (50001) remains in the pool. -/
def replacedState : RelayState :=
  { tenants := [(bytesOfAscii "abcdef", oldTenantEx)],
    portPool := [50000, 50001], nextPortIndex := 1 }

/-- Events of an optional handler result, empty when the handler panicked. -/
def evsOf (o : Option (RelayState × List Event)) : List Event :=
  (o.map Prod.snd).getD []

/-- C1 counterexample: re-registering tenant "abcdef" (second mux session
2, new listener 11) emits only the close of the previous listener before
the second REGISTERED frame; the previous mux session 1 is never closed
and the previous port 50000 is never released, contrary to the claim. -/
theorem C1_counterexample :
    evsOf (handleRegistration replacedState (bytesOfAscii "abcdef") 2 true 11 5 true)
      = [Event.closeListener 10, Event.sentRegistered]
    ∧ Event.closeSession 1
        ∉ evsOf (handleRegistration replacedState (bytesOfAscii "abcdef") 2 true 11 5 true)
    ∧ Event.releasedPort 50000
        ∉ evsOf (handleRegistration replacedState (bytesOfAscii "abcdef") 2 true 11 5 true) := by
  decide

/-- C1 amended: when a REGISTER arrives for a tenant_id already present in
the registry and registerTenant succeeds, the relay closes only the
previous session's public listener before inserting the new session and
sending the second REGISTERED frame; it does not close the previous mux
session and does not release the previous port (main.go's index pool has
no release operation), though the new session does replace the old one in
the registry. -/
theorem C1_replacement (st : RelayState) (tid : List Nat) (sessionId : Nat)
    (bindOk : Bool) (listenerId : Nat) (now : Int) (old : Tenant)
    (out : RegisterOutcome) (t : Tenant)
    (hold : mapLookup st.tenants tid = some old)
    (hreg : registerTenant st tid sessionId bindOk listenerId now = some out)
    (hres : out.result = some t) :
    out.events = [Event.closeListener old.listener]
    ∧ (∀ i : Nat, Event.closeSession i ∉ out.events)
    ∧ (∀ p : Int, Event.releasedPort p ∉ out.events)
    ∧ mapLookup out.state.tenants tid = some t := by
  unfold registerTenant at hreg
  by_cases hidx : st.nextPortIndex < st.portPool.length
  · simp only [hold, hidx, dite_true] at hreg
    by_cases hbind : bindOk
    · simp only [hbind, if_true] at hreg
      cases hsql : sqlUserOf tid with
      | none => simp [hsql] at hreg
      | some u =>
          simp only [hsql, Option.some.injEq] at hreg
          rw [← hreg] at hres ⊢
          simp only [Option.some.injEq] at hres
          refine ⟨rfl, ?_, ?_, ?_⟩
          · intro i
            simp
          · intro p
            simp
          · simp only
            rw [← hres]
            exact mapLookup_mapInsert_self _ _ _
    · simp [hbind] at hreg
      rw [← hreg] at hres
      simp at hres
  · simp only [hold, hidx, dite_false, Option.some.injEq] at hreg
    rw [← hreg] at hres
    simp at hres

/-- C1 witness: the amended replacement behaviour evaluated on the
concrete re-registration of tenant "abcdef". -/
theorem C1_replacement_witness :
    ((registerTenant replacedState (bytesOfAscii "abcdef") 2 true 11 5).get
        (by decide)).events = [Event.closeListener 10]
    ∧ Event.closeSession 1
        ∉ ((registerTenant replacedState (bytesOfAscii "abcdef") 2 true 11 5).get
            (by decide)).events
    ∧ Event.releasedPort 50000
        ∉ ((registerTenant replacedState (bytesOfAscii "abcdef") 2 true 11 5).get
            (by decide)).events
    ∧ mapLookup ((registerTenant replacedState (bytesOfAscii "abcdef") 2 true 11 5).get
          (by decide)).state.tenants (bytesOfAscii "abcdef")
        = ((registerTenant replacedState (bytesOfAscii "abcdef") 2 true 11 5).get
            (by decide)).result := by
  have h := C1_replacement replacedState (bytesOfAscii "abcdef") 2 true 11 5
    oldTenantEx
    ((registerTenant replacedState (bytesOfAscii "abcdef") 2 true 11 5).get (by decide))
    (((registerTenant replacedState (bytesOfAscii "abcdef") 2 true 11 5).get
        (by decide)).result.get (by decide))
    (by decide) (Option.some_get _).symm (Option.some_get _).symm
  exact ⟨h.1, h.2.1 1, h.2.2.1 50000, by rw [h.2.2.2, Option.some_get]⟩

/- ------------------------------------------------------------------
C2 — port release on teardown
------------------------------------------------------------------ -/

/-- A main.go relay state whose single pool port 50000 is held by the
registered tenant "abcdef". -/
def mainOneTenant : RelayState :=
  { tenants := [(bytesOfAscii "abcdef", oldTenantEx)],
    portPool := [50000], nextPortIndex := 1 }

/-- C2 counterexample: tearing tenant "abcdef" down through main.go's
unregisterTenant closes its listener but never returns port 50000 to the
pool: the free count stays 0 and a subsequent registration fails for lack
of ports, so the port is not reusable, contrary to the claim. -/
theorem C2_counterexample :
    (unregisterTenant mainOneTenant (bytesOfAscii "abcdef")).2
      = [Event.closeListener 10]
    ∧ Event.releasedPort 50000
        ∉ (unregisterTenant mainOneTenant (bytesOfAscii "abcdef")).2
    ∧ mapLookup (unregisterTenant mainOneTenant (bytesOfAscii "abcdef")).1.tenants
        (bytesOfAscii "abcdef") = none
    ∧ freeCountMain (unregisterTenant mainOneTenant (bytesOfAscii "abcdef")).1 = 0
    ∧ registerTenant (unregisterTenant mainOneTenant (bytesOfAscii "abcdef")).1
        (bytesOfAscii "uvwxyz") 2 true 11 0
      = some { result := none,
               state := (unregisterTenant mainOneTenant (bytesOfAscii "abcdef")).1,
               events := [] } := by
  decide

/-- C2 amended: in the heartbeat variant every teardown goes through
cleanupAgent, which returns the agent's port to the free set strictly
after closing its public listener (event order close-listener,
close-conn, release-port), removes the agent, and increases the free
count by one; in the main.go variant unregisterTenant closes the listener
and removes the tenant but never returns the port to its pool. -/
theorem C2_cleanup_releases (st : AgentRelay) (port : Int) (a : Agent)
    (ha : mapLookup st.agents port = some a) :
    (∀ l : Nat, a.listenerId = some l →
      (cleanupAgent st port).2
        = [Event.closeListener l, Event.closeConn a.connId, Event.releasedPort port])
    ∧ port ∈ (cleanupAgent st port).1.availablePorts
    ∧ mapLookup (cleanupAgent st port).1.agents port = none
    ∧ freeCount (cleanupAgent st port).1 = freeCount st + 1 := by
  unfold cleanupAgent
  rw [ha]
  refine ⟨?_, ?_, ?_, ?_⟩
  · intro l hl
    simp [hl, releasePort]
  · simp [releasePort]
  · simp [releasePort, mapLookup_mapErase_self]
  · simp [releasePort, freeCount]

/-- An agent holding port 50000 with listener 10 and control connection 7. -/
def agentEx : Agent :=
  { connId := 7, assignedPort := 50000, listenerId := some 10, lastHeartbeat := 0 }

/-- A heartbeat-variant state with agentEx registered and an empty free list. -/
def agentRelayEx : AgentRelay :=
  { agents := [(50000, agentEx)], availablePorts := [] }

/-- C2 witness: cleanupAgent on the concrete one-agent state closes
listener 10 and connection 7, then releases port 50000. -/
theorem C2_cleanup_releases_witness :
    (cleanupAgent agentRelayEx 50000).2
      = [Event.closeListener 10, Event.closeConn 7, Event.releasedPort 50000]
    ∧ 50000 ∈ (cleanupAgent agentRelayEx 50000).1.availablePorts
    ∧ mapLookup (cleanupAgent agentRelayEx 50000).1.agents 50000 = none
    ∧ freeCount (cleanupAgent agentRelayEx 50000).1 = freeCount agentRelayEx + 1 := by
  have h := C2_cleanup_releases agentRelayEx 50000 agentEx (by decide)
  exact ⟨h.1 10 rfl, h.2.1, h.2.2.1, h.2.2.2⟩

/- ------------------------------------------------------------------
C3 — no port leak on registration failure
------------------------------------------------------------------ -/

/-- A SimpleRelay state with one free port and an empty registry. -/
def freshSimpleState : SimpleState :=
  { tenants := [], portPool := [50000], nextPortIndex := 0 }

/-- C3 counterexample: in main-simple.go a handshake whose OK write fails
inserts no session, yet the pool cursor is never rolled back: the free
count drops from 1 to 0 permanently, contrary to the claim. -/
theorem C3_counterexample :
    freeCountSimple freshSimpleState = 1
    ∧ (simpleHandleRegister freshSimpleState false true true 1 2).inserted = false
    ∧ freeCountSimple (simpleHandleRegister freshSimpleState false true true 1 2).state
        = 0 := by
  decide

/-- C3 amended: in the heartbeat variant (part_001 handleAgent) every
registration handshake that does not end with a session inserted leaves
the pool's free count at its pre-handshake value (bind failure releases
the port, OK-write failure runs cleanupAgent); in main-simple.go and
main.go the index pool is never rolled back, so a failed handshake
permanently loses one free port. -/
theorem C3_no_leak (st : AgentRelay) (command : String) (bindOk : Bool)
    (listenerId connId : Nat) (now : Int) (writeOk : Bool)
    (hpool : (0 : Int) ∉ st.availablePorts) :
    (handleAgentRegister st command bindOk listenerId connId now writeOk).2.2.isSuccess
        = false →
      freeCount (handleAgentRegister st command bindOk listenerId connId now writeOk).1
        = freeCount st := by
  intro hfail
  by_cases hcmd : command = "REGISTER"
  · subst hcmd
    cases hap : st.availablePorts with
    | nil =>
        simp [handleAgentRegister, assignPort, hap, freeCount]
    | cons p rest =>
        have hp0 : ¬ p = 0 := by
          intro hp
          exact hpool (hap ▸ (hp ▸ List.mem_cons_self p rest))
        by_cases hbind : bindOk
        · by_cases hwrite : writeOk
          · simp [handleAgentRegister, assignPort, hap, hp0, hbind, hwrite,
              RegResult.isSuccess] at hfail
          · simp only [handleAgentRegister, assignPort, hap, hp0, hbind, hwrite] at hfail ⊢
            simp [cleanupAgent, mapLookup_mapInsert_self, releasePort, freeCount, hap]
        · simp [handleAgentRegister, assignPort, hap, hp0, hbind, releasePort,
            freeCount]
  · simp [handleAgentRegister, hcmd]

/-- A heartbeat-variant pool with one free port 50001 and no agents. -/
def bindFailPool : AgentRelay :=
  { agents := [], availablePorts := [50001] }

/-- C3 witness: a handshake whose listener bind fails leaves the free
count of the concrete one-port pool unchanged. -/
theorem C3_no_leak_witness :
    freeCount (handleAgentRegister bindFailPool "REGISTER" false 1 2 0 true).1
      = freeCount bindFailPool :=
  C3_no_leak bindFailPool "REGISTER" false 1 2 0 true (by decide) (by decide)

/- ------------------------------------------------------------------
C6 — pool-exhaustion reply
------------------------------------------------------------------ -/

/-- A SimpleRelay state whose pool is exhausted. -/
def exhaustedSimple : SimpleState :=
  { tenants := [], portPool := [], nextPortIndex := 0 }

/-- An empty heartbeat-variant state: no agents, no free ports. -/
def exhaustedAgent : AgentRelay :=
  { agents := [], availablePorts := [] }

/-- C6 counterexample: the claim says the relay answers pool exhaustion
with exactly the line "ERROR no available ports\n"; main-simple.go
(src/main-simple.go:116) instead writes "ERROR No ports available\n". -/
theorem C6_counterexample :
    (simpleHandleRegister exhaustedSimple true true true 1 2).written
      = ["ERROR No ports available\n"]
    ∧ (simpleHandleRegister exhaustedSimple true true true 1 2).written
        ≠ ["ERROR no available ports\n"]
    ∧ (simpleHandleRegister exhaustedSimple true true true 1 2).inserted = false
    ∧ (simpleHandleRegister exhaustedSimple true true true 1 2).state
        = exhaustedSimple := by
  refine ⟨rfl, ?_, rfl, rfl⟩
  decide

/-- C6 amended: on a REGISTER with an exhausted pool the relay writes one
error line and leaves the registry and the pool unchanged; the line is
"ERROR no available ports\n" in the heartbeat variant (part_001
handleAgent) but "ERROR No ports available\n" in main-simple.go. -/
theorem C6_pool_exhaustion (st : AgentRelay) (bindOk : Bool)
    (listenerId connId : Nat) (now : Int) (writeOk : Bool)
    (sst : SimpleState) (wk mk bk : Bool) (sessionId lId : Nat)
    (hempty : st.availablePorts = [])
    (hfull : sst.portPool.length ≤ sst.nextPortIndex) :
    handleAgentRegister st "REGISTER" bindOk listenerId connId now writeOk
      = (st, ["ERROR no available ports\n"], RegResult.errNoPorts)
    ∧ simpleHandleRegister sst wk mk bk sessionId lId
      = { state := sst, written := ["ERROR No ports available\n"],
          inserted := false } := by
  constructor
  · simp [handleAgentRegister, assignPort, hempty]
  · simp [simpleHandleRegister, Nat.not_lt.mpr hfull]

/-- C6 witness: both exhaustion replies evaluated on concrete empty
pools. -/
theorem C6_pool_exhaustion_witness :
    exhaustedAgent.availablePorts = []
    ∧ exhaustedSimple.portPool.length ≤ exhaustedSimple.nextPortIndex
    ∧ (handleAgentRegister exhaustedAgent "REGISTER" true 1 2 0 true
        = (exhaustedAgent, ["ERROR no available ports\n"], RegResult.errNoPorts)
      ∧ simpleHandleRegister exhaustedSimple true true true 1 2
        = { state := exhaustedSimple, written := ["ERROR No ports available\n"],
            inserted := false }) :=
  ⟨rfl, by decide,
    C6_pool_exhaustion exhaustedAgent true 1 2 0 true exhaustedSimple true true true 1 2
      rfl (by decide)⟩

/- ------------------------------------------------------------------
C7 — heartbeat staleness bound
------------------------------------------------------------------ -/

theorem cleanupAgent_lookup_ne (st : AgentRelay) (p q : Int) (h : q ≠ p) :
    mapLookup (cleanupAgent st p).1.agents q = mapLookup st.agents q := by
  unfold cleanupAgent
  cases hl : mapLookup st.agents p with
  | none => rfl
  | some a => simp [releasePort, mapLookup_mapErase_ne _ _ _ h]

theorem cleanupAgent_lookup_self (st : AgentRelay) (p : Int) :
    mapLookup (cleanupAgent st p).1.agents p = none := by
  unfold cleanupAgent
  cases hl : mapLookup st.agents p with
  | none => simpa using hl
  | some a => simp [releasePort, mapLookup_mapErase_self]

theorem foldl_cleanup_lookup_notin (ports : List Int) :
    ∀ (st : AgentRelay) (q : Int), q ∉ ports →
      mapLookup (ports.foldl (fun s p => (cleanupAgent s p).1) st).agents q
        = mapLookup st.agents q := by
  induction ports with
  | nil =>
      intro st q _
      rfl
  | cons p rest ih =>
      intro st q h
      have hq : q ≠ p := fun he => h (he ▸ List.mem_cons_self p rest)
      have hq2 : q ∉ rest := fun hm => h (List.mem_cons_of_mem p hm)
      simp only [List.foldl_cons]
      rw [ih _ q hq2, cleanupAgent_lookup_ne st p q hq]

theorem foldl_cleanup_lookup_mem (ports : List Int) :
    ∀ (st : AgentRelay) (q : Int), q ∈ ports →
      mapLookup (ports.foldl (fun s p => (cleanupAgent s p).1) st).agents q
        = none := by
  induction ports with
  | nil =>
      intro st q h
      simp at h
  | cons p rest ih =>
      intro st q h
      simp only [List.foldl_cons]
      by_cases hq : q ∈ rest
      · exact ih _ q hq
      · have hqp : q = p := by
          rcases List.mem_cons.mp h with h1 | h2
          · exact h1
          · exact absurd h2 hq
        subst hqp
        rw [foldl_cleanup_lookup_notin rest _ q hq, cleanupAgent_lookup_self]

/-- C7: an agent whose lastHeartbeat is more than 120 seconds old at the
time of a heartbeatChecker scan is removed by that scan; with distinct
registry keys, an agent at most 120 seconds old survives the scan
untouched; and a received HEARTBEAT line resets the agent's
lastHeartbeat to the current time. -/
theorem C7_heartbeat_staleness (st : AgentRelay) (now tHb : Int)
    (port : Int) (a : Agent) (ha : mapLookup st.agents port = some a) :
    (now - a.lastHeartbeat > 120 →
      mapLookup (heartbeatScan st now).agents port = none)
    ∧ ((st.agents.map Prod.fst).Nodup → now - a.lastHeartbeat ≤ 120 →
        mapLookup (heartbeatScan st now).agents port = some a)
    ∧ mapLookup (handleHeartbeatLine st port "HEARTBEAT" tHb).agents port
        = some { a with lastHeartbeat := tHb } := by
  refine ⟨?_, ?_, ?_⟩
  · intro hstale
    have hmem : port ∈ stalePorts st now :=
      List.mem_map.mpr
        ⟨(port, a),
         List.mem_filter.mpr ⟨mapLookup_mem ha, by simpa using hstale⟩, rfl⟩
    exact foldl_cleanup_lookup_mem _ _ _ hmem
  · intro hnd hfresh
    have hnmem : port ∉ stalePorts st now := by
      intro hmem
      rcases List.mem_map.mp hmem with ⟨pa, hpa, hfst⟩
      have hpam := List.mem_filter.mp hpa
      have hmem2 : (port, pa.2) ∈ st.agents := by
        have hp : pa = (port, pa.2) := by
          obtain ⟨p1, a1⟩ := pa
          simp only at hfst
          simp [hfst]
        rw [← hp]
        exact hpam.1
      have hlk := mem_mapLookup_of_nodup hnd hmem2
      have heq : pa.2 = a := by
        have := ha.symm.trans hlk
        injection this with h2
        exact h2.symm
      have hstale2 : now - pa.2.lastHeartbeat > 120 := by
        simpa using hpam.2
      rw [heq] at hstale2
      omega
    unfold heartbeatScan
    rw [foldl_cleanup_lookup_notin _ _ _ hnmem]
    exact ha
  · simp [handleHeartbeatLine, ha, mapLookup_mapInsert_self]

/-- An agent last heard from at time 0. -/
def staleAgentEx : Agent :=
  { connId := 1, assignedPort := 50000, listenerId := some 10, lastHeartbeat := 0 }

/-- An agent last heard from at time 100. -/
def freshAgentEx : Agent :=
  { connId := 2, assignedPort := 50001, listenerId := some 11, lastHeartbeat := 100 }

/-- A heartbeat-variant state with one stale and one fresh agent. -/
def twoAgentState : AgentRelay :=
  { agents := [(50000, staleAgentEx), (50001, freshAgentEx)], availablePorts := [] }

/-- C7 witness: a scan at time 130 removes the agent silent since time 0
and keeps the one heard at time 100; a HEARTBEAT line at time 130 resets
lastHeartbeat to 130. -/
theorem C7_heartbeat_staleness_witness :
    mapLookup (heartbeatScan twoAgentState 130).agents 50000 = none
    ∧ mapLookup (heartbeatScan twoAgentState 130).agents 50001 = some freshAgentEx
    ∧ mapLookup (handleHeartbeatLine twoAgentState 50000 "HEARTBEAT" 130).agents 50000
        = some { staleAgentEx with lastHeartbeat := 130 } := by
  have h1 := C7_heartbeat_staleness twoAgentState 130 130 50000 staleAgentEx (by decide)
  have h2 := C7_heartbeat_staleness twoAgentState 130 130 50001 freshAgentEx (by decide)
  exact ⟨h1.1 (by decide), h2.2.1 (by decide) (by decide), h1.2.2⟩

end TatbeebRelay
